import Mathlib

/-
  A shallow embedding of dbms/src/Storages/StorageURL.cpp: the URL storage
  engine adapter.  Pure data models stand in for the external collaborators
  (Poco URIs, the HTTP read/write buffers, the format codec registry, the
  remote host filter); opening an HTTP request is recorded as an explicit
  event so that theorems can speak about network activity and its order.
-/

set_option autoImplicit false

/-- Error codes raised on the translated code paths (DB::ErrorCodes plus the
format-registry failure). -/
inductive ErrorCode where
  | NUMBER_OF_ARGUMENTS_DOESNT_MATCH
  | UNACCEPTABLE_URL
  | UNKNOWN_FORMAT
  deriving DecidableEq

/-- Concrete compression choices (DB::CompressionMethod).  The string
sentinel "auto" is resolved to one of these before any stream opens. -/
inductive CompressionMethod where
  | none
  | gzip
  | zstd
  deriving DecidableEq

/-- Model of the external Poco::URI collaborator: scheme, host, path and an
ordered query-parameter list. -/
structure URI where
  scheme : String
  host : String
  path : String
  query : List (String × String)
  deriving DecidableEq

def URI.getPath (u : URI) : String := u.path

/-- Poco::URI::addQueryParameter appends one (parameter, value) pair at the
end of the query, leaving every other component unchanged. -/
def URI.addQueryParameter (u : URI) (param value : String) : URI :=
  { u with query := u.query ++ [(param, value)] }

def renderQuery : List (String × String) → String
  | [] => ""
  | [(k, v)] => k ++ "=" ++ v
  | (k, v) :: rest => k ++ "=" ++ v ++ "&" ++ renderQuery rest

/-- Poco::URI::toString renders the full address, including the query part
when one is present. -/
def URI.toString (u : URI) : String :=
  u.scheme ++ "://" ++ u.host ++ u.path ++
    (if u.query.isEmpty then "" else "?" ++ renderQuery u.query)

structure ColumnDescription where
  name : String
  type : String
  default_expression : Option String
  deriving DecidableEq

structure ColumnsDescription where
  columns : List ColumnDescription
  deriving DecidableEq

/-- ColumnsDescription::getDefaults: the (column name, default expression)
pairs of the columns that declare a default. -/
def ColumnsDescription.getDefaults (cd : ColumnsDescription) : List (String × String) :=
  cd.columns.filterMap fun c => c.default_expression.map fun e => (c.name, e)

structure ConstraintsDescription where
  constraints : List String
  deriving DecidableEq

/-- Model of the execution Context collaborator: the remote-host allowlist
predicate, the codec names registered in the format factory, and the
settings this file consults. -/
structure Context where
  remoteHostFilter : String → Bool
  formats : List String
  max_http_get_redirects : Nat
  http_timeout : Nat

/-- A header block: the names of the columns a stream produces. -/
abbrev Block := List String

structure SelectQueryInfo where
  query : String
  deriving DecidableEq

abbrev ASTPtr := String

/-- One recorded network action: opening an HTTP request. -/
inductive NetEvent where
  | httpOpen (uri : URI) (method : String) (timeouts : Nat)
  deriving DecidableEq

def HTTPRequest.HTTP_GET : String := "GET"

def HTTPRequest.HTTP_POST : String := "POST"

/-- Modelled from the spec: RemoteHostFilter::checkURL is not part of the
excerpt.  Per the spec it fails with UnacceptableResource (UNACCEPTABLE_URL)
when the host is not permitted, and has no side effect beyond the check. -/
def remoteHostFilterCheckURL (filter : String → Bool) (uri : URI) : Except ErrorCode Unit :=
  if filter uri.host then Except.ok () else Except.error ErrorCode.UNACCEPTABLE_URL

def charListBeq : List Char → List Char → Bool
  | [], [] => true
  | a :: as, b :: bs => a == b && charListBeq as bs
  | _, _ => false

/-- Suffix test on strings, by structural recursion over the character
lists so that concrete instances evaluate inside the kernel. -/
def strEndsWith (s suffix : String) : Bool :=
  if suffix.data.length ≤ s.data.length then
    charListBeq (s.data.drop (s.data.length - suffix.data.length)) suffix.data
  else false

/-- Modelled from the spec: IStorage::chooseCompressionMethod is not part of
the excerpt.  Per the spec, the sentinel "auto" is resolved from the suffix
of the given string to a known algorithm, defaulting to none when the
suffix is unrecognized; an explicit algorithm name is used verbatim,
without inspecting the path (unknown explicit names are outside the spec's
enumeration and map to none here). -/
def chooseCompressionMethod (path_or_uri : String) (compression_method : String) : CompressionMethod :=
  if compression_method == "auto" then
    if strEndsWith path_or_uri ".gz" then CompressionMethod.gzip
    else if strEndsWith path_or_uri ".zst" then CompressionMethod.zstd
    else CompressionMethod.none
  else if compression_method == "gzip" then CompressionMethod.gzip
  else if compression_method == "zstd" then CompressionMethod.zstd
  else CompressionMethod.none

/-- The row reader handed back by the codec registry: the format, the target
header block and the block-size bound. -/
structure InputStreamDesc where
  format : String
  sample_block : Block
  max_block_size : Nat
  deriving DecidableEq

/-- Modelled from the spec: FormatFactory::getInput is the external codec
registry lookup; an invalid format name fails at first use. -/
def FormatFactory.getInput (format : String) (sample_block : Block) (context : Context) (max_block_size : Nat) : Except ErrorCode InputStreamDesc :=
  if format ∈ context.formats then
    Except.ok { format := format, sample_block := sample_block, max_block_size := max_block_size }
  else Except.error ErrorCode.UNKNOWN_FORMAT

structure OutputStreamDesc where
  format : String
  sample_block : Block
  deriving DecidableEq

/-- Modelled from the spec: FormatFactory::getOutput, as for getInput. -/
def FormatFactory.getOutput (format : String) (sample_block : Block) (context : Context) : Except ErrorCode OutputStreamDesc :=
  if format ∈ context.formats then Except.ok { format := format, sample_block := sample_block }
  else Except.error ErrorCode.UNKNOWN_FORMAT

def ConnectionTimeouts.getHTTPTimeouts (context : Context) : Nat := context.http_timeout

/-- The read buffer opened against the resource (ReadWriteBufferFromHTTP
wrapped with decompression): a pure description of its configuration. -/
structure ReadBufferDesc where
  compression_method : CompressionMethod
  uri : URI
  method : String
  callback : Option String
  timeouts : Nat
  max_redirects : Nat
  deriving DecidableEq

/-- The write buffer opened against the resource (WriteBufferFromHTTP
wrapped with compression). -/
structure WriteBufferDesc where
  compression_method : CompressionMethod
  uri : URI
  method : String
  timeouts : Nat
  deriving DecidableEq

structure StorageURLBlockInputStreamDesc where
  name : String
  read_buf : ReadBufferDesc
  reader : InputStreamDesc
  deriving DecidableEq

/-- StorageURLBlockInputStream constructor: opens the HTTP read buffer (the
network action) and then resolves the format against the codec registry.
The network action precedes the registry lookup, as in the source. -/
def StorageURLBlockInputStream.construct (uri : URI) (method : String) (callback : Option String) (format : String) (name_ : String) (sample_block : Block) (context : Context) (max_block_size : Nat) (timeouts : Nat) (compression_method : CompressionMethod) : List NetEvent × Except ErrorCode StorageURLBlockInputStreamDesc :=
  ([NetEvent.httpOpen uri method timeouts],
    match FormatFactory.getInput format sample_block context max_block_size with
    | Except.ok reader =>
        Except.ok
          { name := name_,
            read_buf :=
              { compression_method := compression_method, uri := uri, method := method,
                callback := callback, timeouts := timeouts,
                max_redirects := context.max_http_get_redirects },
            reader := reader }
    | Except.error e => Except.error e)

structure StorageURLBlockOutputStreamDesc where
  sample_block : Block
  write_buf : WriteBufferDesc
  writer : OutputStreamDesc
  deriving DecidableEq

/-- StorageURLBlockOutputStream constructor: opens the HTTP write buffer
with the POST method (hard-coded in the source) and then resolves the
output format against the codec registry. -/
def StorageURLBlockOutputStream.construct (uri : URI) (format : String) (sample_block_ : Block) (context : Context) (timeouts : Nat) (compression_method : CompressionMethod) : List NetEvent × Except ErrorCode StorageURLBlockOutputStreamDesc :=
  ([NetEvent.httpOpen uri HTTPRequest.HTTP_POST timeouts],
    match FormatFactory.getOutput format sample_block_ context with
    | Except.ok writer =>
        Except.ok
          { sample_block := sample_block_,
            write_buf :=
              { compression_method := compression_method, uri := uri,
                method := HTTPRequest.HTTP_POST, timeouts := timeouts },
            writer := writer }
    | Except.error e => Except.error e)

/-- The collaborator calls a StorageURLBlockOutputStream method performs. -/
inductive SinkStep where
  | writerSuffix
  | writerFlush
  | bufFinalize
  deriving DecidableEq

/-- StorageURLBlockOutputStream::writeSuffix: the collaborator calls it
performs, in source order: writer->writeSuffix(), writer->flush(),
write_buf->finalize(). -/
def StorageURLBlockOutputStream.writeSuffix : List SinkStep :=
  [SinkStep.writerSuffix, SinkStep.writerFlush, SinkStep.bufFinalize]

/-- The member state of an IStorageURLBase. -/
structure StorageURLState where
  uri : URI
  context_global : Context
  compression_method : String
  format_name : String
  table_name : String
  database_name : String
  columns : ColumnsDescription
  constraints : ConstraintsDescription

/-- The member values an IStorageURLBase holds after a successful
construction. -/
def IStorageURLBase.initialState (uri_ : URI) (context_ : Context) (database_name_ table_name_ format_name_ : String) (columns_ : ColumnsDescription) (constraints_ : ConstraintsDescription) (compression_method_ : String) : StorageURLState :=
  { uri := uri_, context_global := context_, compression_method := compression_method_,
    format_name := format_name_, table_name := table_name_, database_name := database_name_,
    columns := columns_, constraints := constraints_ }

/-- IStorageURLBase constructor: checks the URI against the remote host
filter before anything else, then installs columns and constraints.  No
network action is performed; the (empty) network trace of the construction
is returned alongside the result. -/
def IStorageURLBase.construct (uri_ : URI) (context_ : Context) (database_name_ table_name_ format_name_ : String) (columns_ : ColumnsDescription) (constraints_ : ConstraintsDescription) (compression_method_ : String) : List NetEvent × Except ErrorCode StorageURLState :=
  match remoteHostFilterCheckURL context_.remoteHostFilter uri_ with
  | Except.error e => ([], Except.error e)
  | Except.ok _ =>
      ([], Except.ok (IStorageURLBase.initialState uri_ context_ database_name_ table_name_ format_name_ columns_ constraints_ compression_method_))

/-- The virtual hooks a concrete URL storage supplies to the base class
(the subclass surface IStorageURLBase::read dispatches through). -/
structure URLStorageVirtuals where
  getReadMethod : String
  getReadURIParams : List String → SelectQueryInfo → Context → Nat → Nat → List (String × String)
  getReadPOSTDataCallback : List String → SelectQueryInfo → Context → Nat → Nat → Option String
  getName : String
  getHeaderBlock : List String → ColumnsDescription → Block

/-- Modelled from the spec: getHeaderBlock of the concrete storage is not in
the excerpt; the spec projects the declared schema to the requested
columns. -/
def specHeaderBlock (column_names : List String) (cols : ColumnsDescription) : Block :=
  cols.columns.filterMap fun c => if c.name ∈ column_names then some c.name else none

/-- The base-class virtual results present in the excerpt: retrieval method
GET, no extra query parameters, no request-body callback. -/
def IStorageURLBase.defaultVirtuals : URLStorageVirtuals :=
  { getReadMethod := HTTPRequest.HTTP_GET,
    getReadURIParams := fun _ _ _ _ _ => [],
    getReadPOSTDataCallback := fun _ _ _ _ _ => none,
    getName := "URL",
    getHeaderBlock := specHeaderBlock }

/-- The stream returned by read: the URL input stream, possibly wrapped by
an AddingDefaultsBlockInputStream stage carrying column defaults. -/
inductive BlockInputStreamDesc where
  | url (s : StorageURLBlockInputStreamDesc)
  | addingDefaults (inner : BlockInputStreamDesc) (column_defaults : List (String × String))
  deriving DecidableEq

/-- Modelled from the spec: IStorage::getSampleBlock is not in the excerpt;
it is the table's full declared schema. -/
def IStorage.getSampleBlock (s : StorageURLState) : Block :=
  s.columns.columns.map fun c => c.name

/-- IStorageURLBase::read: copies the stored URI, appends the per-request
query parameters to the copy, opens the input stream (network action plus
codec-registry lookup) with the compression chosen from the request URI's
path, and wraps the stream in an AddingDefaults stage exactly when the
schema declares column defaults.  Returns the (unchanged) member state, the
network trace and the streams. -/
def IStorageURLBase.read (virt : URLStorageVirtuals) (s : StorageURLState) (column_names : List String) (query_info : SelectQueryInfo) (context : Context) (processed_stage : Nat) (max_block_size : Nat) (_num_streams : Nat) : StorageURLState × List NetEvent × Except ErrorCode (List BlockInputStreamDesc) :=
  let params := virt.getReadURIParams column_names query_info context processed_stage max_block_size
  let request_uri := List.foldl (fun u pv => URI.addQueryParameter u pv.1 pv.2) s.uri params
  let res := StorageURLBlockInputStream.construct request_uri virt.getReadMethod
      (virt.getReadPOSTDataCallback column_names query_info context processed_stage max_block_size)
      s.format_name virt.getName (virt.getHeaderBlock column_names s.columns) context max_block_size
      (ConnectionTimeouts.getHTTPTimeouts context)
      (chooseCompressionMethod (URI.getPath request_uri) s.compression_method)
  (s, res.1,
    match res.2 with
    | Except.error e => Except.error e
    | Except.ok block_input =>
        if (s.columns.getDefaults).isEmpty then Except.ok [BlockInputStreamDesc.url block_input]
        else Except.ok [BlockInputStreamDesc.addingDefaults (BlockInputStreamDesc.url block_input) (s.columns.getDefaults)])

/-- IStorageURLBase::rename: assigns the table name and the database name;
the new-path argument is unused in the source. -/
def IStorageURLBase.rename (s : StorageURLState) (_new_path_to_db : String) (new_database_name new_table_name : String) : StorageURLState :=
  { s with table_name := new_table_name, database_name := new_database_name }

/-- IStorageURLBase::write: both arguments are unused in the source; the
sink is built from the stored URI, the stored format name, the full sample
block, the global context, and the compression chosen from the stored URI's
full string form. -/
def IStorageURLBase.write (s : StorageURLState) (_query : ASTPtr) (_context : Context) : List NetEvent × Except ErrorCode StorageURLBlockOutputStreamDesc :=
  StorageURLBlockOutputStream.construct s.uri s.format_name (IStorage.getSampleBlock s)
    s.context_global (ConnectionTimeouts.getHTTPTimeouts s.context_global)
    (chooseCompressionMethod (URI.toString s.uri) s.compression_method)

/-- The factory lambda of registerStorageURL: requires 2 or 3 engine
arguments, parses the URL through the Poco model passed in, defaults the
compression method to "auto" when only 2 arguments are present, and
constructs the storage. -/
def registerStorageURL (parseURI : String → URI) (engine_args : List String) (database_name table_name : String) (columns : ColumnsDescription) (constraints : ConstraintsDescription) (context : Context) : List NetEvent × Except ErrorCode StorageURLState :=
  if engine_args.length ≠ 2 ∧ engine_args.length ≠ 3 then
    ([], Except.error ErrorCode.NUMBER_OF_ARGUMENTS_DOESNT_MATCH)
  else
    let url := (engine_args[0]?).getD ""
    let format_name := (engine_args[1]?).getD ""
    let compression_method := if engine_args.length == 3 then (engine_args[2]?).getD "" else "auto"
    IStorageURLBase.construct (parseURI url) context database_name table_name format_name columns constraints compression_method

def okValue {α : Type} : Except ErrorCode α → Option α
  | Except.ok a => some a
  | Except.error _ => none

/-- Number of AddingDefaults wrapping stages around the codec stream. -/
def BlockInputStreamDesc.wrapperCount : BlockInputStreamDesc → Nat
  | BlockInputStreamDesc.url _ => 0
  | BlockInputStreamDesc.addingDefaults inner _ => BlockInputStreamDesc.wrapperCount inner + 1

/-- The column defaults attached by the wrapping stages. -/
def BlockInputStreamDesc.attachedDefaults : BlockInputStreamDesc → List (String × String)
  | BlockInputStreamDesc.url _ => []
  | BlockInputStreamDesc.addingDefaults inner ds => ds ++ BlockInputStreamDesc.attachedDefaults inner

/-- The compression handed to the underlying HTTP read buffer. -/
def BlockInputStreamDesc.compressionOf : BlockInputStreamDesc → CompressionMethod
  | BlockInputStreamDesc.url d => d.read_buf.compression_method
  | BlockInputStreamDesc.addingDefaults inner _ => BlockInputStreamDesc.compressionOf inner

/-- Position of the first occurrence of a step in a step list. -/
def stepIndex (s : SinkStep) : List SinkStep → Nat
  | [] => 0
  | t :: rest => if t = s then 0 else stepIndex s rest + 1

/-- A concrete context used to instantiate theorems: one allowed host, two
registered codecs. -/
def demoCtx : Context :=
  { remoteHostFilter := fun h => h == "example.com",
    formats := ["CSV", "TSV"],
    max_http_get_redirects := 0,
    http_timeout := 30 }

def demoParse : String → URI := fun s => { scheme := "http", host := s, path := "/", query := [] }

/-- A URI whose path carries a recognized compression suffix and whose
query part is nonempty. -/
def demoURI : URI := { scheme := "http", host := "example.com", path := "/data.gz", query := [("a", "1")] }

def demoColumns : ColumnsDescription :=
  { columns := [{ name := "c", type := "UInt64", default_expression := some "0" }] }

def demoColumnsNoDefaults : ColumnsDescription :=
  { columns := [{ name := "c", type := "UInt64", default_expression := none }] }

def demoState : StorageURLState :=
  IStorageURLBase.initialState demoURI demoCtx "db" "t" "CSV" demoColumnsNoDefaults ⟨[]⟩ "auto"

def demoStateDefaults : StorageURLState :=
  IStorageURLBase.initialState demoURI demoCtx "db" "t" "CSV" demoColumns ⟨[]⟩ "auto"

/-- Appending query parameters never changes the path component. -/
theorem uri_path_foldl_addQueryParameter (params : List (String × String)) (u : URI) :
    URI.getPath (List.foldl (fun acc pv => URI.addQueryParameter acc pv.1 pv.2) u params) = URI.getPath u := by
  induction params generalizing u with
  | nil => rfl
  | cons hd tl ih =>
      rw [List.foldl_cons, ih]
      rfl

/-- C1: constructing the adapter with a URI whose host the allowlist
rejects fails with UNACCEPTABLE_URL, and the construction performs zero
network actions (its network trace is empty); since both pipelines require
a successfully constructed adapter, no pipeline network call can precede
the check. -/
theorem construct_rejected_host_fails (uri_ : URI) (context_ : Context) (db tbl fmt : String) (cols : ColumnsDescription) (cons : ConstraintsDescription) (comp : String)
    (h : context_.remoteHostFilter uri_.host = false) :
    IStorageURLBase.construct uri_ context_ db tbl fmt cols cons comp = ([], Except.error ErrorCode.UNACCEPTABLE_URL) := by
  simp [IStorageURLBase.construct, remoteHostFilterCheckURL, h]

theorem construct_rejected_host_fails_witness :
    IStorageURLBase.construct { scheme := "http", host := "evil.example", path := "/", query := [] } demoCtx "db" "t" "CSV" demoColumns ⟨[]⟩ "auto" = ([], Except.error ErrorCode.UNACCEPTABLE_URL) :=
  construct_rejected_host_fails { scheme := "http", host := "evil.example", path := "/", query := [] } demoCtx "db" "t" "CSV" demoColumns ⟨[]⟩ "auto" (by decide)

/-- C2: a table definition whose engine-argument list has a length other
than 2 or 3 fails with NUMBER_OF_ARGUMENTS_DOESNT_MATCH, and with exactly
2 arguments the compression override handed to the constructor is the
sentinel "auto". -/
theorem engine_args_arity_and_default_compression (parseURI : String → URI) (a1 a2 : String) (bad : List String) (db tbl : String) (cols : ColumnsDescription) (cons : ConstraintsDescription) (context : Context)
    (h : bad.length ≠ 2 ∧ bad.length ≠ 3) :
    registerStorageURL parseURI bad db tbl cols cons context = ([], Except.error ErrorCode.NUMBER_OF_ARGUMENTS_DOESNT_MATCH) ∧
    registerStorageURL parseURI [a1, a2] db tbl cols cons context = IStorageURLBase.construct (parseURI a1) context db tbl a2 cols cons "auto" := by
  constructor
  · simp [registerStorageURL, h.1, h.2]
  · simp [registerStorageURL]

theorem engine_args_arity_and_default_compression_witness :
    registerStorageURL demoParse ["u"] "db" "t" demoColumns ⟨[]⟩ demoCtx = ([], Except.error ErrorCode.NUMBER_OF_ARGUMENTS_DOESNT_MATCH) ∧
    registerStorageURL demoParse ["u", "CSV"] "db" "t" demoColumns ⟨[]⟩ demoCtx = IStorageURLBase.construct (demoParse "u") demoCtx "db" "t" "CSV" demoColumns ⟨[]⟩ "auto" :=
  engine_args_arity_and_default_compression demoParse "u" "CSV" ["u"] "db" "t" demoColumns ⟨[]⟩ demoCtx (by decide)

/-- C4: writeSuffix performs exactly three collaborator calls — the codec
end-of-data signal, the codec flush, the byte-stream finalize — each
exactly once and in that order. -/
theorem write_suffix_step_order :
    StorageURLBlockOutputStream.writeSuffix.length = 3 ∧
    StorageURLBlockOutputStream.writeSuffix.count SinkStep.writerSuffix = 1 ∧
    StorageURLBlockOutputStream.writeSuffix.count SinkStep.writerFlush = 1 ∧
    StorageURLBlockOutputStream.writeSuffix.count SinkStep.bufFinalize = 1 ∧
    stepIndex SinkStep.writerSuffix StorageURLBlockOutputStream.writeSuffix < stepIndex SinkStep.writerFlush StorageURLBlockOutputStream.writeSuffix ∧
    stepIndex SinkStep.writerFlush StorageURLBlockOutputStream.writeSuffix < stepIndex SinkStep.bufFinalize StorageURLBlockOutputStream.writeSuffix := by
  decide

/-- C8: read leaves the stored member state untouched and opens its request
against a fresh URI: the stored URI with each returned parameter pair
appended as a query parameter, in order. -/
theorem read_request_uri_and_frame (virt : URLStorageVirtuals) (s : StorageURLState) (column_names : List String) (query_info : SelectQueryInfo) (context : Context) (processed_stage max_block_size num_streams : Nat) :
    (IStorageURLBase.read virt s column_names query_info context processed_stage max_block_size num_streams).1 = s ∧
    (IStorageURLBase.read virt s column_names query_info context processed_stage max_block_size num_streams).2.1 =
      [NetEvent.httpOpen
        (List.foldl (fun u pv => URI.addQueryParameter u pv.1 pv.2) s.uri
          (virt.getReadURIParams column_names query_info context processed_stage max_block_size))
        virt.getReadMethod (ConnectionTimeouts.getHTTPTimeouts context)] := by
  exact ⟨rfl, rfl⟩

/-- C9: write ignores its query and context arguments — the sink is a
function of construction-time state only — and the upload is always opened
with the POST method at the stored URI. -/
theorem write_ignores_arguments_and_uses_post (s : StorageURLState) (q1 q2 : ASTPtr) (c1 c2 : Context) :
    IStorageURLBase.write s q1 c1 = IStorageURLBase.write s q2 c2 ∧
    (IStorageURLBase.write s q1 c1).1 = [NetEvent.httpOpen s.uri HTTPRequest.HTTP_POST (ConnectionTimeouts.getHTTPTimeouts s.context_global)] ∧
    Option.map (fun d => d.write_buf.method) (okValue (IStorageURLBase.write s q1 c1).2) =
      Option.map (fun _ => HTTPRequest.HTTP_POST) (okValue (IStorageURLBase.write s q1 c1).2) := by
  refine ⟨rfl, rfl, ?_⟩
  cases h : FormatFactory.getOutput s.format_name (IStorage.getSampleBlock s) s.context_global <;>
    simp [IStorageURLBase.write, StorageURLBlockOutputStream.construct, h, okValue]

/-- C10: rename changes only the table and database names: the URI, format
name, compression override, schema, constraints and global context are
unchanged, the new names are installed, and the new-path argument is
ignored entirely. -/
theorem rename_frame_effect (s : StorageURLState) (p1 p2 new_db new_tbl : String) :
    (IStorageURLBase.rename s p1 new_db new_tbl).uri = s.uri ∧
    (IStorageURLBase.rename s p1 new_db new_tbl).format_name = s.format_name ∧
    (IStorageURLBase.rename s p1 new_db new_tbl).compression_method = s.compression_method ∧
    (IStorageURLBase.rename s p1 new_db new_tbl).columns = s.columns ∧
    (IStorageURLBase.rename s p1 new_db new_tbl).constraints = s.constraints ∧
    (IStorageURLBase.rename s p1 new_db new_tbl).context_global = s.context_global ∧
    (IStorageURLBase.rename s p1 new_db new_tbl).table_name = new_tbl ∧
    (IStorageURLBase.rename s p1 new_db new_tbl).database_name = new_db ∧
    IStorageURLBase.rename s p1 new_db new_tbl = IStorageURLBase.rename s p2 new_db new_tbl := by
  exact ⟨rfl, rfl, rfl, rfl, rfl, rfl, rfl, rfl, rfl⟩

/-- C3 counterexample: one concrete table (path "/data.gz", query "a=1",
override "auto") for which the read pipeline chooses gzip while the write
pipeline chooses none — so the compression choice is not a single pure
function of the resource path and the override shared by both pipelines. -/
theorem compression_selector_counterexample :
    Option.map (fun l => l.map BlockInputStreamDesc.compressionOf)
        (okValue (IStorageURLBase.read IStorageURLBase.defaultVirtuals demoState ["c"] ⟨"q"⟩ demoCtx 0 100 1).2.2) = some [CompressionMethod.gzip] ∧
    Option.map (fun d => d.write_buf.compression_method)
        (okValue (IStorageURLBase.write demoState "q" demoCtx).2) = some CompressionMethod.none ∧
    CompressionMethod.gzip ≠ CompressionMethod.none := by
  refine ⟨by decide, by decide, by decide⟩

/-- C3 amended: both pipelines use the same selector with the table's
override, but the read pipeline applies it to the request URI's path while
the write pipeline applies it to the stored URI's full string form (which
also carries scheme, host and query), so the two can disagree when the
path's suffix is not a suffix of the full address string. -/
theorem compression_selector_per_pipeline (virt : URLStorageVirtuals) (s : StorageURLState) (column_names : List String) (query_info : SelectQueryInfo) (context : Context) (processed_stage max_block_size num_streams : Nat) (q : ASTPtr) (wctx : Context)
    (hr : s.format_name ∈ context.formats) (hw : s.format_name ∈ s.context_global.formats) :
    Option.map (fun l => l.map BlockInputStreamDesc.compressionOf)
        (okValue (IStorageURLBase.read virt s column_names query_info context processed_stage max_block_size num_streams).2.2) =
      some [chooseCompressionMethod (URI.getPath s.uri) s.compression_method] ∧
    Option.map (fun d => d.write_buf.compression_method) (okValue (IStorageURLBase.write s q wctx).2) =
      some (chooseCompressionMethod (URI.toString s.uri) s.compression_method) := by
  constructor
  · have hpath := uri_path_foldl_addQueryParameter
      (virt.getReadURIParams column_names query_info context processed_stage max_block_size) s.uri
    by_cases hd : (s.columns.getDefaults).isEmpty <;>
      simp [IStorageURLBase.read, StorageURLBlockInputStream.construct, FormatFactory.getInput,
        hr, hd, hpath, okValue, BlockInputStreamDesc.compressionOf]
  · simp [IStorageURLBase.write, StorageURLBlockOutputStream.construct, FormatFactory.getOutput,
      hw, okValue]

theorem compression_selector_per_pipeline_witness :
    Option.map (fun l => l.map BlockInputStreamDesc.compressionOf)
        (okValue (IStorageURLBase.read IStorageURLBase.defaultVirtuals demoState ["c"] ⟨"q"⟩ demoCtx 0 100 1).2.2) =
      some [chooseCompressionMethod (URI.getPath demoState.uri) demoState.compression_method] ∧
    Option.map (fun d => d.write_buf.compression_method) (okValue (IStorageURLBase.write demoState "q" demoCtx).2) =
      some (chooseCompressionMethod (URI.toString demoState.uri) demoState.compression_method) :=
  compression_selector_per_pipeline IStorageURLBase.defaultVirtuals demoState ["c"] ⟨"q"⟩ demoCtx 0 100 1 "q" demoCtx (by decide) (by decide)

/-- C5: when the declared schema has no column defaults the codec stream is
returned unwrapped; otherwise it is wrapped in exactly one AddingDefaults
stage carrying exactly the declared defaults. -/
theorem read_defaults_wrapping (virt : URLStorageVirtuals) (s : StorageURLState) (column_names : List String) (query_info : SelectQueryInfo) (context : Context) (processed_stage max_block_size num_streams : Nat)
    (hfmt : s.format_name ∈ context.formats) :
    Option.map (fun l => (l.map BlockInputStreamDesc.wrapperCount, l.map BlockInputStreamDesc.attachedDefaults))
        (okValue (IStorageURLBase.read virt s column_names query_info context processed_stage max_block_size num_streams).2.2) =
      some (if (s.columns.getDefaults).isEmpty then ([0], [[]]) else ([1], [s.columns.getDefaults])) := by
  by_cases hd : (s.columns.getDefaults).isEmpty <;>
    simp [IStorageURLBase.read, StorageURLBlockInputStream.construct, FormatFactory.getInput,
      hfmt, hd, okValue, BlockInputStreamDesc.wrapperCount, BlockInputStreamDesc.attachedDefaults]

theorem read_defaults_wrapping_witness :
    Option.map (fun l => (l.map BlockInputStreamDesc.wrapperCount, l.map BlockInputStreamDesc.attachedDefaults))
        (okValue (IStorageURLBase.read IStorageURLBase.defaultVirtuals demoStateDefaults ["c"] ⟨"q"⟩ demoCtx 0 100 1).2.2) =
      some (if (demoStateDefaults.columns.getDefaults).isEmpty then ([0], [[]]) else ([1], [demoStateDefaults.columns.getDefaults])) :=
  read_defaults_wrapping IStorageURLBase.defaultVirtuals demoStateDefaults ["c"] ⟨"q"⟩ demoCtx 0 100 1 (by decide)

/-- C7: construction never consults the codec registry — with an allowed
host it succeeds for any format name — and an unregistered format name
fails with UNKNOWN_FORMAT at the first read and at the first write. -/
theorem format_resolved_lazily (uri_ : URI) (context_ : Context) (db tbl fmt : String) (cols : ColumnsDescription) (cons : ConstraintsDescription) (comp : String) (virt : URLStorageVirtuals) (column_names : List String) (query_info : SelectQueryInfo) (rctx : Context) (processed_stage max_block_size num_streams : Nat) (q : ASTPtr) (wctx : Context)
    (hhost : context_.remoteHostFilter uri_.host = true)
    (hr : fmt ∉ rctx.formats)
    (hw : fmt ∉ context_.formats) :
    IStorageURLBase.construct uri_ context_ db tbl fmt cols cons comp = ([], Except.ok (IStorageURLBase.initialState uri_ context_ db tbl fmt cols cons comp)) ∧
    (IStorageURLBase.read virt (IStorageURLBase.initialState uri_ context_ db tbl fmt cols cons comp) column_names query_info rctx processed_stage max_block_size num_streams).2.2 = Except.error ErrorCode.UNKNOWN_FORMAT ∧
    (IStorageURLBase.write (IStorageURLBase.initialState uri_ context_ db tbl fmt cols cons comp) q wctx).2 = Except.error ErrorCode.UNKNOWN_FORMAT := by
  refine ⟨?_, ?_, ?_⟩
  · simp [IStorageURLBase.construct, remoteHostFilterCheckURL, hhost]
  · simp [IStorageURLBase.read, StorageURLBlockInputStream.construct, FormatFactory.getInput,
      IStorageURLBase.initialState, hr]
  · simp [IStorageURLBase.write, StorageURLBlockOutputStream.construct, FormatFactory.getOutput,
      IStorageURLBase.initialState, hw]

theorem format_resolved_lazily_witness :
    IStorageURLBase.construct demoURI demoCtx "db" "t" "Parquet" demoColumns ⟨[]⟩ "auto" = ([], Except.ok (IStorageURLBase.initialState demoURI demoCtx "db" "t" "Parquet" demoColumns ⟨[]⟩ "auto")) ∧
    (IStorageURLBase.read IStorageURLBase.defaultVirtuals (IStorageURLBase.initialState demoURI demoCtx "db" "t" "Parquet" demoColumns ⟨[]⟩ "auto") ["c"] ⟨"q"⟩ demoCtx 0 100 1).2.2 = Except.error ErrorCode.UNKNOWN_FORMAT ∧
    (IStorageURLBase.write (IStorageURLBase.initialState demoURI demoCtx "db" "t" "Parquet" demoColumns ⟨[]⟩ "auto") "q" demoCtx).2 = Except.error ErrorCode.UNKNOWN_FORMAT :=
  format_resolved_lazily demoURI demoCtx "db" "t" "Parquet" demoColumns ⟨[]⟩ "auto" IStorageURLBase.defaultVirtuals ["c"] ⟨"q"⟩ demoCtx 0 100 1 "q" demoCtx (by decide) (by decide) (by decide)
